import Mathlib

/-!
Shallow embedding of the DAIM data-fetching services (current revision under
src/data-fetching-services: data-fetcher.js, constants.js, db-connector.js).

External collaborators (the GitHub search/content/metadata HTTP APIs, the
MongoDB driver, js-yaml's raw text parser) are modelled at their interface:
each network call's outcome is an explicit argument of type Except, and
yaml.load's outcome is an explicit ParsedYaml argument.  JavaScript exceptions
are modelled with Except JsError; a JS function that can throw becomes a Lean
function into Except JsError.  Identifier-resolution errors of JavaScript
(reading a name that is not declared in any enclosing scope raises a
ReferenceError) are modelled explicitly where the source contains such a read.
-/

/-- A thrown JavaScript error: either a ReferenceError raised by evaluating an
undeclared identifier, or an ordinary Error with a message. -/
inductive JsError
  | referenceError (msg : String)
  | jsError (msg : String)
deriving DecidableEq

/-- Character-list equality test for a candidate leading segment.
Helper for the substring test below. -/
def listPrefixCheck : List Char → List Char → Bool
  | [], _ => true
  | _ :: _, [] => false
  | a :: as, b :: bs => a == b && listPrefixCheck as bs

/-- Decides whether needle occurs as a contiguous segment of hay.
Helper for the substring test below. -/
def listInfixCheck (needle : List Char) : List Char → Bool
  | [] => listPrefixCheck needle []
  | b :: bs => listPrefixCheck needle (b :: bs) || listInfixCheck needle bs

/-- JavaScript String.prototype.includes: substring containment. -/
def jsIncludes (s sub : String) : Bool :=
  listInfixCheck sub.toList s.toList

/-- ASCII lowering of one character (the content handled by the heuristics is
ASCII text; JavaScript toLowerCase agrees with this on ASCII). -/
def charToLower (c : Char) : Char :=
  if 65 ≤ c.toNat ∧ c.toNat ≤ 90 then Char.ofNat (c.toNat + 32) else c

/-- JavaScript String.prototype.toLowerCase, on ASCII content. -/
def jsToLower (s : String) : String :=
  String.mk (s.toList.map charToLower)

/-- JavaScript String.prototype.startsWith. -/
def jsStartsWith (s p : String) : Bool :=
  listPrefixCheck p.toList s.toList

/-- JavaScript truthiness of a possibly-absent string value: undefined and
the empty string are falsy, every other string is truthy. -/
def jsTruthyStr (v : Option String) : Bool :=
  v.getD "" != ""

/-- constants.js:5-32 DATABASE_KEYWORDS: the fixed database-technology
keyword list of the current revision (26 entries). -/
def DATABASE_KEYWORDS : List String :=
  ["postgres", "mysql", "mariadb", "mongodb", "redis", "cassandra",
   "cockroachdb", "neo4j", "dynamodb", "oracle", "mssql", "db2", "sqlite",
   "timescaledb", "influxdb", "etcd", "tarantool", "couchbase", "couchdb",
   "tidb", "clickhouse", "opensearch", "elasticsearch", "solr", "hbase",
   "mongo"]

/-- constants.js:35-38: collect the values of environment entries whose key
starts with GH_TOKEN_, dropping falsy (empty) values. -/
def loadGithubTokens (env : List (String × String)) : List String :=
  ((env.filter (fun kv => jsStartsWith kv.1 "GH_TOKEN_")).map
    (fun kv => kv.2)).filter (fun v => v != "")

/-- JavaScript identifier resolution against a scope of string-list bindings:
an undeclared name raises a ReferenceError. -/
def resolveIdent (scope : List (String × List String)) (name : String) :
    Except JsError (List String) :=
  match scope.find? (fun b => b.1 == name) with
  | some b => Except.ok b.2
  | none => Except.error (JsError.referenceError (name ++ " is not defined"))

/-- constants.js:35-45 module evaluation after the token pool is built.
The module declares the const GITHUB_TOKENS (and DATABASE_KEYWORDS, of a
different type, omitted from the scope of string-list bindings), but the
startup guard on line 40 reads the identifier githubTokens, which is not
declared anywhere in the module; evaluating it raises a ReferenceError before
the emptiness test can run.  A true emptiness test would log and call
process.exit(1), modelled as an error value. -/
def constantsStartup (env : List (String × String)) :
    Except JsError (List String) := do
  let tokens := loadGithubTokens env
  let scope := [("GITHUB_TOKENS", tokens)]
  let guardList ← resolveIdent scope "githubTokens"
  if guardList.length == 0 then
    Except.error (JsError.jsError "process exited with code 1")
  else
    Except.ok tokens

/-- constants.js:34-38 GITHUB_TOKENS itself (the declared const): the loaded
token pool for a given environment. -/
def GITHUB_TOKENS (env : List (String × String)) : List String :=
  loadGithubTokens env

/-- data-fetcher.js:107-109: the regular expression micro[-]?service(s)? with
flag i, tested against the already-lowercased content.  On lowercased input it
succeeds exactly when the text contains microservice or micro-service as a
substring (the optional trailing s never affects a test for occurrence). -/
def microservicePatternTest (s : String) : Bool :=
  jsIncludes s "microservice" || jsIncludes s "micro-service"

/-- Array.prototype.some with an effectful (possibly throwing) callback:
evaluates the callback left to right, short-circuiting on the first true and
propagating a thrown error. -/
def someThrow (l : List String) (f : String → Except JsError Bool) :
    Except JsError Bool :=
  match l with
  | [] => Except.ok false
  | k :: ks => do
      let b ← f k
      if b then Except.ok true else someThrow ks f

/-- data-fetcher.js:106-114 analyzeReadme.  containsMicroservices tests the
regex against content.toLowerCase().  containsDatabase evaluates
DATABASE_KEYWORDS.some with a callback that reads contentLowerCase, an
identifier that is not declared anywhere in the module; the first callback
invocation therefore raises a ReferenceError. -/
def analyzeReadme (content : String) : Except JsError Bool := do
  let containsMicroservices := microservicePatternTest (jsToLower content)
  let containsDatabase ← someThrow DATABASE_KEYWORDS
    (fun _keyword =>
      Except.error (JsError.referenceError "contentLowerCase is not defined"))
  Except.ok (containsMicroservices && containsDatabase)

/-- Outcome of yaml.load on the fetched file content (js-yaml is an external
library, modelled at its interface): a thrown parse error; a result that is
falsy or has no truthy services property; or a services mapping, each service
carrying its optional image string (services[name]?.image, absent when the
service value is nullish or has no image key). -/
inductive ParsedYaml
  | parseError (msg : String)
  | noServices
  | withServices (svcs : List (String × Option String))
deriving DecidableEq

/-- data-fetcher.js:117-135 analyzeDockerComposeFile over the outcome of
yaml.load(content).  A parse error is caught and falls through to return
false; a missing services mapping or too few services returns false; otherwise
some service's image (defaulted to the empty string) must contain a database
keyword after lowercasing. -/
def analyzeDockerComposeFile (parsedYaml : ParsedYaml) (numService : Nat) :
    Bool :=
  match parsedYaml with
  | ParsedYaml.parseError _ => false
  | ParsedYaml.noServices => false
  | ParsedYaml.withServices svcs =>
      if numService ≤ svcs.length then
        svcs.any (fun service =>
          let image := service.2.getD ""
          DATABASE_KEYWORDS.any (fun keyword =>
            jsIncludes (jsToLower image) keyword))
      else false

/-- The summary returned by octokit.repos.get: stargazers_count may be absent
(JS undefined, defaulted by the source with a disjunction with 0). -/
structure RepoSummary where
  stargazers_count : Option Nat
  created_at : String
  updated_at : String
deriving DecidableEq

/-- A count field of the metadata record: a number on success, the string
sentinel N/A substituted by the failure handler. -/
inductive CountField
  | num (n : Nat)
  | na
deriving DecidableEq

/-- A date field of the metadata record: a date string on success, the string
sentinel N/A substituted by the failure handler. -/
inductive DateField
  | date (d : String)
  | na
deriving DecidableEq

/-- data-fetcher.js:158-164 / 170-176: the composite metadata record. -/
structure RepoMetadata where
  stars : Nat
  commits : CountField
  contributors : CountField
  creation_date : DateField
  last_update_date : DateField
deriving DecidableEq

/-- data-fetcher.js:170-176: the record returned by the catch handler. -/
def sentinelMetadata : RepoMetadata :=
  { stars := 0
    commits := CountField.na
    contributors := CountField.na
    creation_date := DateField.na
    last_update_date := DateField.na }

/-- data-fetcher.js:138-178 fetchRepoMetadata.  The three awaited lookups
(octokit.repos.get, listCommits with per_page 1, listContributors with
per_page 1) are modelled by their outcomes; all three sit inside one
try/catch, so the first failing lookup routes the whole call to the catch
handler, which returns the full sentinel record.  commits and contributors
are the lengths of the single fetched pages. -/
def fetchRepoMetadata (repoResult : Except String RepoSummary)
    (commitsResult : Except String (List Unit))
    (contributorsResult : Except String (List Unit)) : RepoMetadata :=
  match repoResult with
  | Except.error _ => sentinelMetadata
  | Except.ok repoData =>
    match commitsResult with
    | Except.error _ => sentinelMetadata
    | Except.ok commitsData =>
      match contributorsResult with
      | Except.error _ => sentinelMetadata
      | Except.ok contributorsData =>
        { stars := repoData.stargazers_count.getD 0
          commits := CountField.num commitsData.length
          contributors := CountField.num contributorsData.length
          creation_date := DateField.date repoData.created_at
          last_update_date := DateField.date repoData.updated_at }

/-- One entry of the root directory listing returned by
octokit.repos.getContent with the empty path. -/
structure DirEntry where
  name : String
  type : String
deriving DecidableEq

/-- data-fetcher.js:181-193 hasCodeStructure over the outcome of the root
directory listing fetch: counts entries of type dir and compares with 2; a
fetch error is caught, logged and yields false. -/
def hasCodeStructure (listing : Except String (List DirEntry)) : Bool :=
  match listing with
  | Except.ok data =>
      decide (2 ≤ (data.filter (fun item => item.type == "dir")).length)
  | Except.error _ => false

/-- data-fetcher.js:43: the rate portion of octokit.rateLimit.get. -/
structure QuotaState where
  remaining : Nat
  limit : Nat
  reset : Nat
deriving DecidableEq

/-- data-fetcher.js:33-37 switchToken: cyclic advancement of the module-level
credential index. -/
def switchToken (currentTokenIndex numTokens : Nat) : Nat :=
  (currentTokenIndex + 1) % numTokens

/-- data-fetcher.js:40-55 checkRateLimit over the outcome of the quota fetch:
on success, rotate the credential index iff remaining is at or below the
threshold (the success path only logs and possibly rotates, it never sleeps);
a fetch failure is caught and logged, leaving the index unchanged.  The catch
swallows the error, so the function is total: no exception escapes. -/
def checkRateLimit (rateLimitFetch : Except String QuotaState)
    (threshold currentTokenIndex numTokens : Nat) : Nat :=
  match rateLimitFetch with
  | Except.ok data =>
      if data.remaining ≤ threshold then
        switchToken currentTokenIndex numTokens
      else currentTokenIndex
  | Except.error _ => currentTokenIndex

/-- data-fetcher.js:196-202, the loop body of generateSizeRanges generalized
over the loop counter's start value (the source initializes i to the literal
800).  Each iteration with i < maxSize appends the inclusive range
i .. i + step - 1 and advances i by step.  The JavaScript loop does not
terminate when step = 0; the conjunct 1 ≤ step in the guard exists solely to
make the recursion well-founded and returns [] in that never-terminating case,
which no claim exercises (all claims assume step ≥ 1). -/
def generateSizeRangesFrom (i maxSize step : Nat) : List (Nat × Nat) :=
  if _h : i < maxSize ∧ 1 ≤ step then
    (i, i + step - 1) :: generateSizeRangesFrom (i + step) maxSize step
  else []
termination_by maxSize - i
decreasing_by omega

/-- data-fetcher.js:196-202 generateSizeRanges: the loop with its hardcoded
start value 800. -/
def generateSizeRanges (maxSize step : Nat) : List (Nat × Nat) :=
  generateSizeRangesFrom 800 maxSize step

/-- A JavaScript argument that is either a string or an array of strings;
Array.isArray distinguishes the two.  The sizeRange values produced by
generateSizeRanges and passed through the mining loop are strings. -/
inductive JsArg
  | str (s : String)
  | arr (l : List String)
deriving DecidableEq

/-- JavaScript Array.isArray. -/
def isArrayArg : JsArg → Bool
  | JsArg.str _ => false
  | JsArg.arr _ => true

/-- db-connector.js:62-69: the document inserted into performed_queries
(timestamp omitted: wall-clock time is external). -/
structure PerformedQuery where
  query : String
  sizeRange : JsArg
  page : Nat
  resultsCount : Nat
  totalPages : Nat
deriving DecidableEq

/-- db-connector.js:42-78 saveQueryMetadata.  The validation block runs first:
a falsy query, a sizeRange that fails Array.isArray, a page below 1, or
negative counts each throw (the typeof checks and negativity checks cannot
fire in this Nat model); the catch logs and rethrows, so a validation error
escapes to the caller.  On success the inserted document is returned (the
insertOne call on the external store is taken as succeeding). -/
def saveQueryMetadata (query : String) (sizeRange : JsArg) (page : Nat)
    (resultsCount : Nat) (totalPages : Nat) : Except JsError PerformedQuery :=
  if query == "" then
    Except.error (JsError.jsError "Invalid query parameter")
  else if !(isArrayArg sizeRange) then
    Except.error (JsError.jsError "Invalid sizeRange parameter")
  else if page < 1 then
    Except.error (JsError.jsError "Invalid page parameter")
  else
    Except.ok
      { query := query
        sizeRange := sizeRange
        page := page
        resultsCount := resultsCount
        totalPages := totalPages }

/-- A search item: an opaque candidate reference. -/
abbrev Item := String

/-- The successful response of octokit.search.code for one page. -/
structure SearchPage where
  items : List Item
  total_count : Nat
deriving DecidableEq

/-- data-fetcher.js:58-84 searchRepositories for one page, given a successful
search response (the scenario of the claims premises the provider returning
item lists).  After the search, saveQueryMetadata is awaited inside the try
with totalPages = ceil(total_count / 100); if it throws, the error lands in
the catch, whose 403 branch does not apply (a validation Error carries no
status), so the error is logged and the call returns the empty list, with no
record persisted.  The result pairs the persisted PerformedQuery records with
the returned items. -/
def searchRepositories (query : String) (sizeRange : JsArg) (page : Nat)
    (response : SearchPage) : List PerformedQuery × List Item :=
  match saveQueryMetadata query sizeRange page response.total_count
      ((response.total_count + 99) / 100) with
  | Except.ok pq => ([pq], response.items)
  | Except.error _ => ([], [])

/-- data-fetcher.js:227-280, the per-(query, sizeRange) pagination while loop,
by recursion on explicit fuel.  While hasMoreResults and page ≤ 10: invoke the
rate-limit guard (no effect on the collected outcome), call searchRepositories
for the page, stop if the returned item list is empty, otherwise dispatch the
items to the per-candidate pipeline and advance the page.  The triple collects
the requested page numbers, the persisted PerformedQuery records, and the
items dispatched to the classifier. -/
def paginationLoopAux (query : String) (sizeRange : JsArg)
    (provider : Nat → SearchPage) :
    Nat → Nat → List Nat × List PerformedQuery × List Item
  | _, 0 => ([], [], [])
  | page, fuel + 1 =>
    if page ≤ 10 then
      let res := searchRepositories query sizeRange page (provider page)
      if res.2.length == 0 then ([page], res.1, [])
      else
        let rest := paginationLoopAux query sizeRange provider (page + 1) fuel
        (page :: rest.1, res.1 ++ rest.2.1, res.2 ++ rest.2.2)
    else ([], [], [])

/-- The pagination loop started at page 1.  Fuel 11 is never exhausted: the
page ceiling stops the loop at page 11 after at most 10 iterations. -/
def paginationLoop (query : String) (sizeRange : JsArg)
    (provider : Nat → SearchPage) :
    List Nat × List PerformedQuery × List Item :=
  paginationLoopAux query sizeRange provider 1 11

/-- data-fetcher.js:250-255, the classifier dispatch of the mining loop.
content is the outcome of fetchFileContent (null on fetch error, and the
truthiness test also rejects an empty string); parsed stands for
yaml.load(content) as consumed by analyzeDockerComposeFile.  The first branch
requires type README, the second requires type DOCKER-COMPOSE; the query list
at data-fetcher.js:211-221 declares its compose query with type YAML, which
matches neither branch. -/
def classifyDispatch (type : String) (content : Option String)
    (parsed : ParsedYaml) : Except JsError Bool :=
  if type == "README" && jsTruthyStr content then
    analyzeReadme (content.getD "")
  else if type == "DOCKER-COMPOSE" && jsTruthyStr content then
    Except.ok (analyzeDockerComposeFile parsed 3)
  else
    Except.ok false

/-- data-fetcher.js:265-271: the record built for an admitted candidate.  Its
fields are repository_metadata, url, file_type, file_path and
repo_size_range; it has no repository field. -/
structure AdmittedData where
  repository_metadata : RepoMetadata
  url : String
  file_type : String
  file_path : String
  repo_size_range : String
deriving DecidableEq

/-- db-connector.js:89-108 saveQueryResult.  The repository argument models
the data.repository property read by the validation (none when the caller's
record carries no such field, as at data-fetcher.js:265-272, the only call
site).  A falsy repository throws; the catch logs and rethrows, so the error
escapes to the caller.  On success the inserted record is returned. -/
def saveQueryResult (repository : Option String) (data : AdmittedData) :
    Except JsError AdmittedData :=
  if !(jsTruthyStr repository) then
    Except.error (JsError.jsError "Invalid data: repository field is required")
  else
    Except.ok data

/-- data-fetcher.js:243-277, the per-candidate body of the mining loop:
dispatch to a classifier by declared type; on an admit verdict, gate on
hasCodeStructure (its outcome passed as hasCode), enrich (outcome passed as
metadata), build the record without a repository field and await
saveQueryResult.  The loop body contains no try/catch, so a thrown error
(from classification or from the persistence insert) escapes the loop. -/
def candidatePipeline (type : String) (content : Option String)
    (parsed : ParsedYaml) (hasCode : Bool) (metadata : RepoMetadata)
    (url filePath sizeRange : String) : Except JsError (Option AdmittedData) := do
  let isMicroservices ← classifyDispatch type content parsed
  if isMicroservices then
    if !hasCode then
      pure none
    else
      let data : AdmittedData :=
        { repository_metadata := metadata
          url := url
          file_type := type
          file_path := filePath
          repo_size_range := sizeRange }
      let saved ← saveQueryResult none data
      pure (some saved)
  else
    pure none

/-! ## Concrete fixtures used by the theorems -/

/-- A compose document with three services, one of which declares the image
postgres:14 (the document of the spec's compose-classification example). -/
def composeThreeServices : ParsedYaml :=
  ParsedYaml.withServices
    [("api", none), ("web", none), ("db", some "postgres:14")]

/-- A search provider returning a non-empty item list for pages 1 and 2 and an
empty list for page 3 and beyond (the scenario of the pagination claim). -/
def twoPageProvider : Nat → SearchPage := fun page =>
  if page == 1 then { items := ["ownerA/repoA README.md"], total_count := 250 }
  else if page == 2 then { items := ["ownerB/repoB README.md"], total_count := 250 }
  else { items := [], total_count := 0 }

/-! ## Claim theorems -/

/-- Claim C1 (code bug): the claim says analyzeReadme returns a boolean and
never throws, with content containing microservices and mongodb yielding true.
In the code the database-keyword check reads the undeclared identifier
contentLowerCase, so the very first callback invocation raises a
ReferenceError: analyzeReadme never returns a boolean, on the claim's own
example input and on every other content string alike. -/
theorem analyzeReadme_raises_referenceError :
    analyzeReadme "This project uses Microservices with MongoDB" =
      Except.error (JsError.referenceError "contentLowerCase is not defined")
    ∧ ∀ content, analyzeReadme content =
      Except.error (JsError.referenceError "contentLowerCase is not defined") := by
  exact ⟨rfl, fun _ => rfl⟩

/-- Claim C2 (code bug): the claim says the driver requests pages 1, 2, 3,
writes three PerformedQuery records and dispatches the items of pages 1 and 2.
In the code, saveQueryMetadata validates Array.isArray(sizeRange) although its
own JSDoc types sizeRange as a string and every call site passes the string
produced by generateSizeRanges; the validation throws, the rethrown error
lands in searchRepositories' generic catch (no 403 status), which returns the
empty list.  The driver therefore requests only page 1, persists no
PerformedQuery record, and dispatches no item, even though the provider had
items on pages 1 and 2. -/
theorem pagination_aborts_on_metadata_validation :
    saveQueryMetadata "filename:docker-compose.yml services"
        (JsArg.str "800..800") 1 250 3 =
      Except.error (JsError.jsError "Invalid sizeRange parameter")
    ∧ searchRepositories "filename:docker-compose.yml services"
        (JsArg.str "800..800") 1 (twoPageProvider 1) = ([], [])
    ∧ (twoPageProvider 1).items ≠ []
    ∧ (twoPageProvider 2).items ≠ []
    ∧ (twoPageProvider 3).items = []
    ∧ paginationLoop "filename:docker-compose.yml services"
        (JsArg.str "800..800") twoPageProvider = ([1], [], []) := by
  refine ⟨rfl, rfl, by decide, by decide, rfl, rfl⟩

/-- Claim C3 (confirmed): analyzeDockerComposeFile returns true exactly when
the parse produced a services mapping with at least numService services of
which one declares an image containing a database keyword case-insensitively;
a parse failure or a missing services key yields false (the error is caught
inside the function, which is total by construction); the spec's example
document admits at minimum 3 and rejects at minimum 4. -/
theorem analyzeDockerComposeFile_spec :
    (∀ parsed numService,
      analyzeDockerComposeFile parsed numService = true ↔
        ∃ svcs, parsed = ParsedYaml.withServices svcs ∧
          numService ≤ svcs.length ∧
          ∃ service ∈ svcs, ∃ keyword ∈ DATABASE_KEYWORDS,
            jsIncludes (jsToLower (service.2.getD "")) keyword = true)
    ∧ (∀ msg numService,
        analyzeDockerComposeFile (ParsedYaml.parseError msg) numService = false)
    ∧ (∀ numService,
        analyzeDockerComposeFile ParsedYaml.noServices numService = false)
    ∧ analyzeDockerComposeFile composeThreeServices 3 = true
    ∧ analyzeDockerComposeFile composeThreeServices 4 = false := by
  refine ⟨?_, fun _ _ => rfl, fun _ => rfl, by decide, by decide⟩
  intro parsed numService
  cases parsed with
  | parseError msg => simp [analyzeDockerComposeFile]
  | noServices => simp [analyzeDockerComposeFile]
  | withServices svcs =>
      by_cases hle : numService ≤ svcs.length
      · simp [analyzeDockerComposeFile, hle, List.any_eq_true]
      · simp [analyzeDockerComposeFile, hle]

/-- Claim C4 counterexample: the commit-history lookup fails while the summary
lookup succeeded with five stars; the claim says the returned record keeps the
summary's valid stars value, but the single shared catch handler returns the
whole sentinel record, whose stars field is 0, not 5. -/
theorem fetchRepoMetadata_commit_failure_zeroes_stars :
    fetchRepoMetadata
        (Except.ok { stargazers_count := some 5, created_at := "2020-01-01",
                     updated_at := "2024-01-01" })
        (Except.error "network error") (Except.ok [()]) = sentinelMetadata
    ∧ sentinelMetadata.stars = 0
    ∧ ¬ (fetchRepoMetadata
        (Except.ok { stargazers_count := some 5, created_at := "2020-01-01",
                     updated_at := "2024-01-01" })
        (Except.error "network error") (Except.ok [()])).stars = 5 := by
  refine ⟨rfl, rfl, by decide⟩

/-- Claim C4 (corrected): fetchRepoMetadata always returns a record and never
throws, but the three lookups share one try/catch instead of failing
independently: if any lookup fails, the entire sentinel record (stars 0,
commits N/A, contributors N/A, dates N/A) is returned; only when all three
succeed are the real values returned. -/
theorem fetchRepoMetadata_single_catch :
    ∀ (rd : Except String RepoSummary) (cd kd : Except String (List Unit)),
      ((∃ e, rd = Except.error e) ∨ (∃ e, cd = Except.error e) ∨
          (∃ e, kd = Except.error e) →
        fetchRepoMetadata rd cd kd = sentinelMetadata)
      ∧ (∀ r c k, rd = Except.ok r → cd = Except.ok c → kd = Except.ok k →
          fetchRepoMetadata rd cd kd =
            { stars := r.stargazers_count.getD 0
              commits := CountField.num c.length
              contributors := CountField.num k.length
              creation_date := DateField.date r.created_at
              last_update_date := DateField.date r.updated_at }) := by
  intro rd cd kd
  constructor
  · rintro (⟨e, rfl⟩ | ⟨e, rfl⟩ | ⟨e, rfl⟩)
    · rfl
    · cases rd <;> rfl
    · cases rd <;> cases cd <;> rfl
  · rintro r c k rfl rfl rfl
    rfl

/-- Witness for the corrected C4 theorem at a concrete input: a failed summary
lookup yields the sentinel record. -/
theorem fetchRepoMetadata_single_catch_witness :
    fetchRepoMetadata (Except.error "auth error") (Except.ok [])
      (Except.ok []) = sentinelMetadata :=
  (fetchRepoMetadata_single_catch (Except.error "auth error") (Except.ok [])
    (Except.ok [])).1 (Or.inl ⟨"auth error", rfl⟩)

/-- Claim C7 (code bug): the claim says the process exits only for an empty
credential pool and every crawl-time failure is caught.  In the code the
startup guard reads the undeclared identifier githubTokens (the const is named
GITHUB_TOKENS), so module evaluation raises a ReferenceError even when the
pool is non-empty; and the mining loop has no try/catch, so the classification
ReferenceError of analyzeReadme and the rethrown validation error of
saveQueryResult (whose required repository field the loop's record never
carries) both escape the per-candidate pipeline. -/
theorem fatal_and_escaping_errors :
    constantsStartup [("GH_TOKEN_1", "tokenA")] =
      Except.error (JsError.referenceError "githubTokens is not defined")
    ∧ GITHUB_TOKENS [("GH_TOKEN_1", "tokenA")] = ["tokenA"]
    ∧ candidatePipeline "README" (some "A microservices demo with mongodb")
        ParsedYaml.noServices true sentinelMetadata "u" "README.md" "800..800" =
      Except.error (JsError.referenceError "contentLowerCase is not defined")
    ∧ candidatePipeline "DOCKER-COMPOSE" (some "services text")
        composeThreeServices true sentinelMetadata "u" "docker-compose.yml"
        "800..800" =
      Except.error
        (JsError.jsError "Invalid data: repository field is required") := by
  refine ⟨rfl, rfl, rfl, rfl⟩

/-- Claim C8 (confirmed): hasCodeStructure admits exactly the listings with at
least two entries of type dir, rejects on a fetch error (the catch returns
false, so the function is total), and decides the spec's two examples as
stated. -/
theorem hasCodeStructure_spec :
    (∀ entries, hasCodeStructure (Except.ok entries) = true ↔
      2 ≤ entries.countP (fun item => item.type == "dir"))
    ∧ (∀ msg, hasCodeStructure (Except.error msg) = false)
    ∧ hasCodeStructure (Except.ok
        [{ name := "a", type := "dir" }, { name := "b", type := "file" },
         { name := "c", type := "dir" }]) = true
    ∧ hasCodeStructure (Except.ok
        [{ name := "a", type := "dir" },
         { name := "b", type := "file" }]) = false := by
  refine ⟨?_, fun _ => rfl, by decide, by decide⟩
  intro entries
  simp [hasCodeStructure, ← List.countP_eq_length_filter]

/-- Claim C9 (confirmed): on a fetched quota at or below the threshold the
guard advances the credential index cyclically (wrapping to 0 from the last
index) and simply returns (the success path contains no sleep); above the
threshold it keeps the index; a quota-fetch failure is caught, rotates
nothing, and the call returns normally with the current index. -/
theorem checkRateLimit_spec :
    ∀ (q : QuotaState) (threshold i numTokens : Nat),
      (q.remaining ≤ threshold →
        checkRateLimit (Except.ok q) threshold i numTokens =
          (i + 1) % numTokens)
      ∧ (threshold < q.remaining →
        checkRateLimit (Except.ok q) threshold i numTokens = i)
      ∧ (∀ msg, checkRateLimit (Except.error msg) threshold i numTokens = i)
      ∧ (q.remaining ≤ threshold → i + 1 = numTokens →
        checkRateLimit (Except.ok q) threshold i numTokens = 0) := by
  intro q threshold i numTokens
  refine ⟨?_, ?_, fun _ => rfl, ?_⟩
  · intro h
    simp [checkRateLimit, switchToken, h]
  · intro h
    simp [checkRateLimit, Nat.not_le.mpr h]
  · intro h hwrap
    simp [checkRateLimit, switchToken, h, hwrap]

/-- Witness for the C9 theorem at a concrete input: remaining 5 at threshold
10 with index 2 of 3 tokens wraps to index 0. -/
theorem checkRateLimit_spec_witness :
    checkRateLimit (Except.ok { remaining := 5, limit := 5000, reset := 0 })
      10 2 3 = 0 :=
  (checkRateLimit_spec { remaining := 5, limit := 5000, reset := 0 }
    10 2 3).2.2.2 (by decide) (by decide)

/-- Claim C10 (confirmed): the compose query is declared with type YAML while
the dispatch tests DOCKER-COMPOSE, so for every candidate of that query the
dispatch never calls analyzeDockerComposeFile, the verdict is false whatever
the content and its parse, and the pipeline admits and persists nothing. -/
theorem yaml_candidates_never_admitted :
    ∀ (content : Option String) (parsed : ParsedYaml) (hasCode : Bool)
      (metadata : RepoMetadata) (url filePath sizeRange : String),
      classifyDispatch "YAML" content parsed = Except.ok false
      ∧ candidatePipeline "YAML" content parsed hasCode metadata url filePath
          sizeRange = Except.ok none := by
  intro content parsed hasCode metadata url filePath sizeRange
  exact ⟨rfl, rfl⟩

/-! ## Size-range partition lemmas -/

/-- Closed form of the size-range loop: fuel-indexed induction on the
remaining distance.  Internal helper for the claim theorems below. -/
theorem generateSizeRangesFrom_eq_aux :
    ∀ (n i maxSize step : Nat), 1 ≤ step → maxSize - i ≤ n →
      generateSizeRangesFrom i maxSize step =
        (List.range ((maxSize - i + step - 1) / step)).map
          (fun j => (i + j * step, i + j * step + step - 1)) := by
  intro n
  induction n with
  | zero =>
      intro i maxSize step hstep hle
      rw [generateSizeRangesFrom, dif_neg (by omega)]
      have h0 : (maxSize - i + step - 1) / step = 0 :=
        Nat.div_eq_of_lt (by omega)
      rw [h0]
      simp
  | succ n ih =>
      intro i maxSize step hstep hle
      by_cases hlt : i < maxSize
      · rw [generateSizeRangesFrom, dif_pos ⟨hlt, hstep⟩,
          ih (i + step) maxSize step hstep (by omega)]
        have hm : (maxSize - i + step - 1) / step
            = (maxSize - (i + step) + step - 1) / step + 1 := by
          rcases le_or_lt (maxSize - i) step with hd | hd
          · have h1 : (maxSize - i + step - 1) / step = 1 := by
              apply Nat.div_eq_of_lt_le <;> omega
            have h2 : maxSize - (i + step) + step - 1 = step - 1 := by omega
            rw [h1, h2, Nat.div_eq_of_lt (by omega)]
          · have h3 : maxSize - i + step - 1
                = (maxSize - (i + step) + step - 1) + step := by omega
            rw [h3, Nat.add_div_right _ (by omega)]
        rw [hm, List.range_succ_eq_map, List.map_cons, List.map_map]
        refine congrArg₂ List.cons (by simp) ?_
        refine List.map_congr_left ?_
        intro j _
        have hsm : (j + 1) * step = j * step + step := Nat.succ_mul j step
        simp only [Function.comp, Nat.succ_eq_add_one, Prod.mk.injEq]
        omega
      · rw [generateSizeRangesFrom, dif_neg (by omega)]
        have h0 : (maxSize - i + step - 1) / step = 0 :=
          Nat.div_eq_of_lt (by omega)
        rw [h0]
        simp

/-- Closed form of the size-range loop. -/
theorem generateSizeRangesFrom_eq (i maxSize step : Nat) (hstep : 1 ≤ step) :
    generateSizeRangesFrom i maxSize step =
      (List.range ((maxSize - i + step - 1) / step)).map
        (fun j => (i + j * step, i + j * step + step - 1)) :=
  generateSizeRangesFrom_eq_aux (maxSize - i) i maxSize step hstep
    (Nat.le_refl _)

/-- Every generated range sits inside the loop's domain: its bounds are
ordered (strictly when step is at least 2), its upper bound stays below
maxSize + step, and its width is exactly the step (upper = lower + step - 1,
so the bounds coincide exactly when step = 1). -/
theorem generateSizeRangesFrom_mem_bounds (i maxSize step : Nat)
    (hstep : 1 ≤ step) :
    ∀ r ∈ generateSizeRangesFrom i maxSize step,
      i ≤ r.1 ∧ r.1 ≤ r.2 ∧ r.2 < maxSize + step ∧ (2 ≤ step → r.1 < r.2)
        ∧ r.2 = r.1 + step - 1 := by
  rw [generateSizeRangesFrom_eq i maxSize step hstep]
  intro r hr
  obtain ⟨j, hj, rfl⟩ := List.mem_map.mp hr
  have hjlt : j < (maxSize - i + step - 1) / step := List.mem_range.mp hj
  have hnd : ((maxSize - i + step - 1) / step) * step ≤ maxSize - i + step - 1 :=
    Nat.div_mul_le_self _ _
  have hmul : (j + 1) * step ≤ ((maxSize - i + step - 1) / step) * step :=
    Nat.mul_le_mul_right step (by omega)
  have hsm : (j + 1) * step = j * step + step := Nat.succ_mul j step
  refine ⟨by omega, by omega, by omega, by omega, by omega⟩

/-- The generated ranges are strictly increasing: each range's upper bound
lies strictly below the next range's lower bound. -/
theorem generateSizeRangesFrom_pairwise (i maxSize step : Nat)
    (hstep : 1 ≤ step) :
    (generateSizeRangesFrom i maxSize step).Pairwise
      (fun r s => r.2 < s.1) := by
  rw [generateSizeRangesFrom_eq i maxSize step hstep]
  refine List.Pairwise.map _ ?_ (List.pairwise_lt_range _)
  intro a b hab
  have hmul : (a + 1) * step ≤ b * step := Nat.mul_le_mul_right step (by omega)
  have hsm : (a + 1) * step = a * step + step := Nat.succ_mul a step
  omega

/-- Every size in the interval from i to maxSize (exclusive) is covered by
some generated range. -/
theorem generateSizeRangesFrom_cover (i maxSize step : Nat) (hstep : 1 ≤ step)
    (k : Nat) (h1 : i ≤ k) (h2 : k < maxSize) :
    ∃ r ∈ generateSizeRangesFrom i maxSize step, r.1 ≤ k ∧ k ≤ r.2 := by
  rw [generateSizeRangesFrom_eq i maxSize step hstep]
  have hq := Nat.div_add_mod (k - i) step
  have hqlt : (k - i) % step < step := Nat.mod_lt _ (by omega)
  have hn := Nat.div_add_mod (maxSize - i + step - 1) step
  have hnlt : (maxSize - i + step - 1) % step < step := Nat.mod_lt _ (by omega)
  have hc : (k - i) / step * step = step * ((k - i) / step) :=
    Nat.mul_comm _ _
  have hjn : (k - i) / step < (maxSize - i + step - 1) / step := by
    by_contra hcon
    push_neg at hcon
    have hmul : step * ((maxSize - i + step - 1) / step)
        ≤ step * ((k - i) / step) := Nat.mul_le_mul_left step hcon
    omega
  refine ⟨((k - i) / step * step + i, (k - i) / step * step + i + step - 1),
    List.mem_map.mpr ⟨(k - i) / step, List.mem_range.mpr hjn, by
      simp only [Prod.mk.injEq]
      omega⟩, by omega, by omega⟩

/-- The number of generated ranges is the ceiling of the covered distance
divided by the step width. -/
theorem generateSizeRangesFrom_length (i maxSize step : Nat)
    (hstep : 1 ≤ step) :
    (generateSizeRangesFrom i maxSize step).length =
      (maxSize - i + step - 1) / step := by
  rw [generateSizeRangesFrom_eq i maxSize step hstep]
  simp

/-- Claim C5 (confirmed): for every start, max and step with step at least 1,
the size-range loop (generateSizeRanges runs it with its hardcoded start 800)
produces exactly ceil((max - start) / step) ranges, covers every size in
start ≤ k < max with no gaps, is strictly increasing with no overlaps, and
its last range's upper bound stays strictly below max + step. -/
theorem generateSizeRanges_partition_spec :
    ∀ (start maxSize step : Nat), 1 ≤ step →
      (generateSizeRangesFrom start maxSize step).length =
        (maxSize - start + step - 1) / step
      ∧ (∀ k, start ≤ k → k < maxSize →
          ∃ r ∈ generateSizeRangesFrom start maxSize step, r.1 ≤ k ∧ k ≤ r.2)
      ∧ (generateSizeRangesFrom start maxSize step).Pairwise
          (fun r s => r.2 < s.1)
      ∧ (∀ r, (generateSizeRangesFrom start maxSize step).getLast? = some r →
          r.2 < maxSize + step)
      ∧ generateSizeRanges maxSize step =
          generateSizeRangesFrom 800 maxSize step := by
  intro start maxSize step hstep
  refine ⟨generateSizeRangesFrom_length start maxSize step hstep,
    fun k hk1 hk2 =>
      generateSizeRangesFrom_cover start maxSize step hstep k hk1 hk2,
    generateSizeRangesFrom_pairwise start maxSize step hstep, ?_, rfl⟩
  intro r hr
  have hmem : r ∈ generateSizeRangesFrom start maxSize step :=
    List.mem_of_mem_getLast? (by simp [hr])
  exact (generateSizeRangesFrom_mem_bounds start maxSize step hstep
    r hmem).2.2.1

/-- Witness for the C5 theorem at a concrete input: start 800, max 805,
step 2. -/
theorem generateSizeRanges_partition_spec_witness :
    (generateSizeRangesFrom 800 805 2).length = (805 - 800 + 2 - 1) / 2
    ∧ (∀ k, 800 ≤ k → k < 805 →
        ∃ r ∈ generateSizeRangesFrom 800 805 2, r.1 ≤ k ∧ k ≤ r.2)
    ∧ (generateSizeRangesFrom 800 805 2).Pairwise (fun r s => r.2 < s.1)
    ∧ (∀ r, (generateSizeRangesFrom 800 805 2).getLast? = some r →
        r.2 < 805 + 2)
    ∧ generateSizeRanges 805 2 = generateSizeRangesFrom 800 805 2 :=
  generateSizeRanges_partition_spec 800 805 2 (by decide)

/-- Claim C6 counterexample: with the configured run parameters
(maxSize 5000, step 1) the first generated range is 800..800, whose lower
bound equals its upper bound, so the claimed strict inequality
lowerBoundKB < upperBoundKB fails. -/
theorem sizeRange_lower_eq_upper_at_step_one :
    (800, 800) ∈ generateSizeRanges 5000 1 ∧ ¬ ((800 : Nat) < 800) := by
  constructor
  · rw [generateSizeRanges, generateSizeRangesFrom_eq 800 5000 1 (by omega)]
    exact List.mem_map.mpr ⟨0, List.mem_range.mpr (by norm_num), by norm_num⟩
  · omega

/-- Claim C6 (corrected): every generated SizeRange satisfies
lowerBoundKB ≤ upperBoundKB, with strict inequality whenever step ≥ 2; with
the configured step = 1 each range has equal bounds.  The sequence is
strictly increasing and non-overlapping for every step ≥ 1, including the
configured step = 1. -/
theorem sizeRange_bounds_amended :
    ∀ (start maxSize step : Nat), 1 ≤ step →
      (∀ r ∈ generateSizeRangesFrom start maxSize step,
        r.1 ≤ r.2 ∧ (2 ≤ step → r.1 < r.2) ∧ (step = 1 → r.1 = r.2))
      ∧ (generateSizeRangesFrom start maxSize step).Pairwise
          (fun r s => r.2 < s.1)
      ∧ (∀ r ∈ generateSizeRanges maxSize step,
          r.1 ≤ r.2 ∧ (step = 1 → r.1 = r.2)) := by
  intro start maxSize step hstep
  refine ⟨?_, generateSizeRangesFrom_pairwise start maxSize step hstep, ?_⟩
  · intro r hr
    have h := generateSizeRangesFrom_mem_bounds start maxSize step hstep r hr
    exact ⟨h.2.1, h.2.2.2.1, fun h1 => by omega⟩
  · intro r hr
    have h := generateSizeRangesFrom_mem_bounds 800 maxSize step hstep r hr
    exact ⟨h.2.1, fun h1 => by omega⟩

/-- Witness for the corrected C6 theorem at the configured run parameters
(maxSize 5000, step 1), where the equality clause is exercised. -/
theorem sizeRange_bounds_amended_witness :
    (∀ r ∈ generateSizeRangesFrom 800 5000 1,
      r.1 ≤ r.2 ∧ (2 ≤ 1 → r.1 < r.2) ∧ (1 = 1 → r.1 = r.2))
    ∧ (generateSizeRangesFrom 800 5000 1).Pairwise (fun r s => r.2 < s.1)
    ∧ (∀ r ∈ generateSizeRanges 5000 1, r.1 ≤ r.2 ∧ (1 = 1 → r.1 = r.2)) :=
  sizeRange_bounds_amended 800 5000 1 (by decide)
